import Mathlib

/-!
Shallow embedding of the trade-idea ingestion and bracket-order execution
engine of the ib_bridge repository.

Two near-duplicate variants exist in the source and are both embedded:
  * namespace `Stp2`         — src/py/ib_bridge_stp2.py (stop-entry policy)
  * namespace `LegacyBridge` — "src/py - Copy"/ib_bridge.py (entry-only policy)

Broker and feed are external collaborators; they are modelled as oracle
inputs (quote responses per attempt, qualification outcome, the broker's
open-order snapshot).  Mutable process state (the order-id counter, the
persisted cursor) is threaded explicitly.  A Python function that raises an
exception which no caller catches is modelled with an explicit
raised/aborted outcome.
-/

namespace IbBridge

/-- A market-data snapshot as returned by one `reqMktData` + `sleep` round:
the ticker's last-trade price and last-close price. -/
structure Ticker where
  last : ℚ
  close : ℚ
deriving DecidableEq

/-- The kind of broker order: `StopLimitOrder`, `LimitOrder` or `StopOrder`. -/
inductive OrderKind where
  | stopLimit
  | limit
  | stop
deriving DecidableEq

/-- One leg of a bracket order, with the attributes the scripts set:
action (BUY/SELL), quantity, the relevant price fields, the order id, the
parent link and the transmit flag. -/
structure Order where
  kind : OrderKind
  action : String
  totalQuantity : ℤ
  stopPrice : Option ℚ := none
  lmtPrice : Option ℚ := none
  orderId : ℤ := 0
  parentId : Option ℤ := none
  transmit : Bool := true
deriving DecidableEq

/-- A trade idea as consumed by the stp2 coordinator: its numeric `ID`
(the script applies `int(...)` to the feed value) and its `BuySell`
action-code string. -/
structure Trade where
  id : ℤ
  buySell : String
deriving DecidableEq

namespace Stp2

/-- `MAX_ORDERS = 15` at the top of ib_bridge_stp2.py.  The constant is
defined but never read by any function in that script. -/
def MAX_ORDERS : ℤ := 15

/-- `retry_count = 3` inside `fetch_latest_price`. -/
def retry_count : Nat := 3

/-- The attempt loop of `fetch_latest_price`: `tickers i` is the quote
snapshot that `reqMktData` + `ib.sleep(2)` yields on attempt `i`; the
second argument counts the remaining attempts.  Returns `none` when the
final `raise ValueError` is reached. -/
def fetch_latest_price_from (tickers : Nat → Ticker) : Nat → Nat → Option ℚ
  | _, 0 => none
  | i, fuel + 1 =>
    let ticker := tickers i
    if ticker.last > 0 then some ticker.last
    else if ticker.close > 0 then some ticker.close
    else fetch_latest_price_from tickers (i + 1) fuel

/-- `fetch_latest_price(ib, contract)` of ib_bridge_stp2.py: up to
`retry_count` attempts; per attempt prefer a positive last-trade price,
else a positive last-close price; `none` models the uncaught
`ValueError` after the loop. -/
def fetch_latest_price (tickers : Nat → Ticker) : Option ℚ :=
  fetch_latest_price_from tickers 0 retry_count

/-- `get_next_order_id()`: increments the global counter and returns it.
State-passing form: `(new counter, returned id)`. -/
def get_next_order_id (counter : ℤ) : ℤ × ℤ :=
  (counter + 1, counter + 1)

/-- `bracket_order(action, quantity, stop_price, limit_price,
stop_loss_price, take_profit_price)` of ib_bridge_stp2.py: a stop-limit
parent with `transmit = False`, a limit take-profit with
`parentId = parent.orderId` and `transmit = False`, and a stop stop-loss
with `parentId = parent.orderId` and `transmit = True`; each leg draws its
id from `get_next_order_id`.  Returns the new counter and the list
`[parent, take_profit, stop_loss]`. -/
def bracket_order (counter : ℤ) (action : String) (quantity : ℤ)
    (stop_price limit_price stop_loss_price take_profit_price : ℚ) :
    ℤ × List Order :=
  let c1 := (get_next_order_id counter).1
  let parent_order_id := (get_next_order_id counter).2
  let parent : Order :=
    { kind := .stopLimit, action := action, totalQuantity := quantity,
      stopPrice := some stop_price, lmtPrice := some limit_price,
      orderId := parent_order_id, parentId := none, transmit := false }
  let c2 := (get_next_order_id c1).1
  let take_profit : Order :=
    { kind := .limit, action := if action = "BUY" then "SELL" else "BUY",
      totalQuantity := quantity, lmtPrice := some take_profit_price,
      orderId := (get_next_order_id c1).2, parentId := some parent_order_id,
      transmit := false }
  let c3 := (get_next_order_id c2).1
  let stop_loss : Order :=
    { kind := .stop, action := if action = "BUY" then "SELL" else "BUY",
      totalQuantity := quantity, stopPrice := some stop_loss_price,
      orderId := (get_next_order_id c2).2, parentId := some parent_order_id,
      transmit := true }
  (c3, [parent, take_profit, stop_loss])

/-- Python's `str.strip()`, modelled on the character list: drop leading
and trailing whitespace. -/
def pyStrip (s : String) : String :=
  ⟨((s.data.dropWhile Char.isWhitespace).reverse.dropWhile Char.isWhitespace).reverse⟩

/-- Python's `str.upper()`, modelled on the character list. -/
def pyUpper (s : String) : String :=
  ⟨s.data.map Char.toUpper⟩

/-- The `[ORDER]` configuration section as `process_trade_idea` of
ib_bridge_stp2.py reads it: quantity and the four price offsets. -/
structure OrderConfig where
  quantity : ℤ
  stop_offset : ℚ
  limit_offset : ℚ
  stop_loss_offset : ℚ
  take_profit_offset : ℚ
deriving DecidableEq

/-- The broker-side environment one idea's processing observes:
whether `ib.qualifyContracts(contract)` returns a non-empty list, and the
quote snapshot delivered on each price-fetch attempt. -/
structure BrokerEnv where
  qualifies : Bool
  tickers : Nat → Ticker

/-- Outcome of `process_trade_idea` in the stp2 script: an early `return`
without placing anything, a normal return after placing the bracket legs,
or an uncaught exception propagating out of the function. -/
inductive IdeaResult where
  | skipped
  | placed (orders : List Order)
  | raised
deriving DecidableEq

/-- `action_map = {'L': 'BUY', 'S': 'SELL'}` lookup of ib_bridge_stp2.py. -/
def action_map (a : String) : Option String :=
  if a = "L" then some "BUY" else if a = "S" then some "SELL" else none

/-- The four prices computed by lines 148-161 of ib_bridge_stp2.py. -/
structure BracketPrices where
  stop_price : ℚ
  limit_price : ℚ
  stop_loss_price : ℚ
  take_profit_price : ℚ
deriving DecidableEq

/-- The `if action == 'BUY' / elif action == 'SELL' / else` price block of
`process_trade_idea` in ib_bridge_stp2.py.  BUY adds `abs` of the stop,
limit and take-profit offsets and adds `stop_loss_offset` raw (the code
comments that it should be negative); SELL subtracts `abs` of the stop,
limit and take-profit offsets and adds `abs(stop_loss_offset)`.  `none`
models the dead `else: return` branch. -/
def bracket_prices (action : String) (latest_price : ℚ) (cfg : OrderConfig) :
    Option BracketPrices :=
  if action = "BUY" then
    let stop_price := latest_price + |cfg.stop_offset|
    some { stop_price := stop_price,
           limit_price := latest_price + |cfg.limit_offset|,
           stop_loss_price := stop_price + cfg.stop_loss_offset,
           take_profit_price := stop_price + |cfg.take_profit_offset| }
  else if action = "SELL" then
    let stop_price := latest_price - |cfg.stop_offset|
    some { stop_price := stop_price,
           limit_price := latest_price - |cfg.limit_offset|,
           stop_loss_price := stop_price + |cfg.stop_loss_offset|,
           take_profit_price := stop_price - |cfg.take_profit_offset| }
  else none

/-- `process_trade_idea(trade, ib, config)` of ib_bridge_stp2.py, with the
order-id counter threaded through: normalise the action code with
`.strip().upper()` and look it up in `action_map` (unknown code: skip);
skip when contract qualification fails; fetch the latest price (an
exhausted retry loop raises); compute the bracket prices; build the
bracket; place all three legs. -/
def process_trade_idea (cfg : OrderConfig) (env : BrokerEnv) (trade : Trade)
    (counter : ℤ) : ℤ × IdeaResult :=
  let actionCode := pyUpper (pyStrip trade.buySell)
  match action_map actionCode with
  | none => (counter, .skipped)
  | some action =>
    if env.qualifies = false then (counter, .skipped)
    else
      match fetch_latest_price env.tickers with
      | none => (counter, .raised)
      | some latest_price =>
        match bracket_prices action latest_price cfg with
        | none => (counter, .skipped)
        | some prices =>
          let built := bracket_order counter action cfg.quantity
            prices.stop_price prices.limit_price
            prices.stop_loss_price prices.take_profit_price
          (built.1, .placed built.2)

/-- Insertion step of the stable ascending sort by trade id. -/
def insert_by_id (t : Trade) : List Trade → List Trade
  | [] => [t]
  | u :: us => if u.id < t.id then u :: insert_by_id t us else t :: u :: us

/-- `sorted(trade_ideas, key=lambda t: int(t["ID"]))` of
ib_bridge_stp2.py: a stable ascending sort by the numeric id. -/
def sort_trades : List Trade → List Trade
  | [] => []
  | t :: ts => insert_by_id t (sort_trades ts)

/-- The observable outcome of one polling cycle: the final order-id
counter, the final (persisted) cursor, the ids processed by
`process_trade_idea` without raising (in processing order), the ids whose
bracket was dispatched, every order submitted to the broker, and whether
an uncaught exception aborted the cycle (and the whole polling loop). -/
structure CycleOut where
  counter : ℤ
  cursor : ℤ
  processed : List ℤ
  dispatched : List ℤ
  submissions : List Order
  aborted : Bool
deriving DecidableEq

/-- The `for trade in trade_ideas:` body of `poll_cashbox_service` in
ib_bridge_stp2.py over an already-sorted list: ideas with
`trade_id > last_processed_id` are handed to `process_trade_idea`, after
which the cursor is set to that id and written out; ideas at or below the
cursor are ignored.  An exception from `process_trade_idea` propagates
(nothing catches it), recorded as `aborted := true` with the loop left
mid-batch. -/
def run_ideas (cfg : OrderConfig) (env : ℤ → BrokerEnv) :
    ℤ → ℤ → List Trade → CycleOut
  | counter, cursor, [] =>
      { counter := counter, cursor := cursor, processed := [],
        dispatched := [], submissions := [], aborted := false }
  | counter, cursor, t :: rest =>
      if cursor < t.id then
        match process_trade_idea cfg (env t.id) t counter with
        | (c2, .raised) =>
            { counter := c2, cursor := cursor, processed := [],
              dispatched := [], submissions := [], aborted := true }
        | (c2, .skipped) =>
            let out := run_ideas cfg env c2 t.id rest
            { out with processed := t.id :: out.processed }
        | (c2, .placed orders) =>
            let out := run_ideas cfg env c2 t.id rest
            { out with processed := t.id :: out.processed,
                       dispatched := t.id :: out.dispatched,
                       submissions := orders ++ out.submissions }
      else
        run_ideas cfg env counter cursor rest

/-- One iteration of the `while True` polling loop of
`poll_cashbox_service` on a non-empty fetch: sort the fetched batch by id,
then run the per-idea loop from the cursor value read at the start of the
cycle. -/
def poll_cycle (cfg : OrderConfig) (env : ℤ → BrokerEnv)
    (counter cursor : ℤ) (trade_ideas : List Trade) : CycleOut :=
  run_ideas cfg env counter cursor (sort_trades trade_ideas)

end Stp2

namespace LegacyBridge

/-- `fetch_latest_price(ib, contract)` of the legacy ib_bridge.py copy:
a single quote request, preferring a positive last-trade price, else a
positive last-close price; `none` models the raised `ValueError`. -/
def fetch_latest_price (ticker : Ticker) : Option ℚ :=
  if ticker.last > 0 then some ticker.last
  else if ticker.close > 0 then some ticker.close
  else none

/-- `symbol_map = {"SPX": "MES"}` applied by `process_trade_idea`:
remap the feed symbol to the tradable future symbol when present. -/
def symbol_map (s : String) : String :=
  if s = "SPX" then "MES" else s

/-- An entry of the broker's open-order snapshot as `check_order_limit`
inspects it: the order's contract symbol and expiry, and its action. -/
structure OpenOrder where
  symbol : String
  lastTradeDateOrContractMonth : String
  action : String
deriving DecidableEq

/-- The contract fields that `check_order_limit` compares against each
open order. -/
structure ContractSpec where
  symbol : String
  lastTradeDateOrContractMonth : String
deriving DecidableEq

/-- `check_order_limit(ib, contract)` of the legacy copy: count the open
orders matching the contract's symbol and expiry, grouped into
`(buy_orders, sell_orders)` by action. -/
def check_order_limit (open_orders : List OpenOrder) (contract : ContractSpec) :
    ℤ × ℤ :=
  open_orders.foldl
    (fun counts order =>
      if order.symbol = contract.symbol ∧
          order.lastTradeDateOrContractMonth =
            contract.lastTradeDateOrContractMonth then
        if order.action = "BUY" then (counts.1 + 1, counts.2)
        else if order.action = "SELL" then (counts.1, counts.2 + 1)
        else counts
      else counts)
    (0, 0)

/-- `place_orders_if_under_limit(ib, contract, orders)` of the legacy
copy: place every order when both sides' open-order counts are under 15,
otherwise place nothing.  Returns the list of orders actually submitted. -/
def place_orders_if_under_limit (open_orders : List OpenOrder)
    (contract : ContractSpec) (orders : List Order) : List Order :=
  let counts := check_order_limit open_orders contract
  if counts.1 < 15 ∧ counts.2 < 15 then orders else []

/-- `bracket_order(parent_order_id, action, quantity, entry_price,
stop_loss_offset, limit_price_offset)` of the legacy copy: a limit parent
at the entry price, a limit take-profit at `entry_price +
limit_price_offset` with id `parent_order_id + 1`, and a stop stop-loss at
`entry_price - stop_loss_offset` with id `parent_order_id + 2`; both
children carry `ParentId = parent_order_id`; transmit is False, False,
True.  `none` models the `raise ValueError` on an action other than
BUY/SELL. -/
def bracket_order (parent_order_id : ℤ) (action : String) (quantity : ℤ)
    (entry_price stop_loss_offset limit_price_offset : ℚ) :
    Option (List Order) :=
  if action ≠ "BUY" ∧ action ≠ "SELL" then none
  else
    let parent : Order :=
      { kind := .limit, action := action, totalQuantity := quantity,
        lmtPrice := some entry_price, orderId := parent_order_id,
        parentId := none, transmit := false }
    let take_profit_action := if action = "BUY" then "SELL" else "BUY"
    let take_profit : Order :=
      { kind := .limit, action := take_profit_action,
        totalQuantity := quantity,
        lmtPrice := some (entry_price + limit_price_offset),
        orderId := parent_order_id + 1, parentId := some parent_order_id,
        transmit := false }
    let stop_loss_action := if action = "BUY" then "SELL" else "BUY"
    let stop_loss : Order :=
      { kind := .stop, action := stop_loss_action, totalQuantity := quantity,
        stopPrice := some (entry_price - stop_loss_offset),
        orderId := parent_order_id + 2, parentId := some parent_order_id,
        transmit := true }
    some [parent, take_profit, stop_loss]

/-- A trade idea as the legacy copy reads it: id, feed symbol and the
`BuySell` action code. -/
structure CopyTrade where
  id : ℤ
  symbol : String
  buySell : String
deriving DecidableEq

/-- The configuration fields the legacy `process_trade_idea` reads: the
`[ORDER]` offsets (keys `entry_price_offset`, `stop_loss_price`,
`limit_price`) and the `[CONTRACT]` expiry. -/
structure CopyConfig where
  entry_price_offset : ℚ
  stop_loss_offset : ℚ
  limit_price_offset : ℚ
  expiry : String
deriving DecidableEq

/-- The broker-side environment one legacy idea's processing observes:
qualification outcome, the single quote snapshot, and the open-order
snapshot consulted by the throttle. -/
structure CopyEnv where
  qualifies : Bool
  ticker : Ticker
  open_orders : List OpenOrder

/-- `process_trade_idea(trade, ib, config)` of the legacy copy, with the
broker's request-id sequence threaded through (`ib.client.getReqId()`
returns the current value and advances the sequence).  Result: the new
request-id value, and `none` when an uncaught `ValueError` propagates,
else `some submissions` — the orders actually placed (empty on a skip or
a throttle denial).  Note the entry/stop/target prices and the bracket
are computed and built before `place_orders_if_under_limit` runs. -/
def process_trade_idea (cfg : CopyConfig) (env : CopyEnv) (trade : CopyTrade)
    (reqId : ℤ) : ℤ × Option (List Order) :=
  let symbol := symbol_map trade.symbol
  let contract : ContractSpec :=
    { symbol := symbol, lastTradeDateOrContractMonth := cfg.expiry }
  if env.qualifies = false then (reqId, some [])
  else
    match fetch_latest_price env.ticker with
    | none => (reqId, none)
    | some latest_price =>
      let adjusted_entry_price := latest_price + cfg.entry_price_offset
      let action :=
        if trade.buySell = "S" then some "SELL"
        else if trade.buySell = "B" then some "BUY"
        else none
      match action with
      | none => (reqId, some [])
      | some action =>
        match bracket_order reqId action 1 adjusted_entry_price
            cfg.stop_loss_offset cfg.limit_price_offset with
        | none => (reqId + 1, none)
        | some legs =>
            (reqId + 1,
             some (place_orders_if_under_limit env.open_orders contract legs))

end LegacyBridge

/-! Helper lemmas about the stp2 polling loop. -/

namespace Stp2

variable (cfg : OrderConfig) (env : ℤ → BrokerEnv)

theorem run_ideas_cons_ignored (c cur : ℤ) (t : Trade) (ts : List Trade)
    (h : ¬ cur < t.id) :
    run_ideas cfg env c cur (t :: ts) = run_ideas cfg env c cur ts := by
  simp [run_ideas, h]

theorem run_ideas_cons_raised (c cur c2 : ℤ) (t : Trade) (ts : List Trade)
    (h : cur < t.id)
    (hp : process_trade_idea cfg (env t.id) t c = (c2, .raised)) :
    run_ideas cfg env c cur (t :: ts) =
      { counter := c2, cursor := cur, processed := [], dispatched := [],
        submissions := [], aborted := true } := by
  simp [run_ideas, h, hp]

theorem run_ideas_cons_skipped (c cur c2 : ℤ) (t : Trade) (ts : List Trade)
    (h : cur < t.id)
    (hp : process_trade_idea cfg (env t.id) t c = (c2, .skipped)) :
    run_ideas cfg env c cur (t :: ts) =
      { run_ideas cfg env c2 t.id ts with
          processed := t.id :: (run_ideas cfg env c2 t.id ts).processed } := by
  simp [run_ideas, h, hp]

theorem run_ideas_cons_placed (c cur c2 : ℤ) (orders : List Order)
    (t : Trade) (ts : List Trade) (h : cur < t.id)
    (hp : process_trade_idea cfg (env t.id) t c = (c2, .placed orders)) :
    run_ideas cfg env c cur (t :: ts) =
      { run_ideas cfg env c2 t.id ts with
          processed := t.id :: (run_ideas cfg env c2 t.id ts).processed,
          dispatched := t.id :: (run_ideas cfg env c2 t.id ts).dispatched,
          submissions :=
            orders ++ (run_ideas cfg env c2 t.id ts).submissions } := by
  simp [run_ideas, h, hp]

theorem run_ideas_cursor_mono (ts : List Trade) :
    ∀ c cur : ℤ, cur ≤ (run_ideas cfg env c cur ts).cursor := by
  induction ts with
  | nil => intro c cur; simp [run_ideas]
  | cons t ts ih =>
    intro c cur
    by_cases h : cur < t.id
    · rcases hp : process_trade_idea cfg (env t.id) t c with ⟨c2, r⟩
      cases r with
      | raised => rw [run_ideas_cons_raised cfg env c cur c2 t ts h hp]
      | skipped =>
          rw [run_ideas_cons_skipped cfg env c cur c2 t ts h hp]
          exact le_trans h.le (ih c2 t.id)
      | placed orders =>
          rw [run_ideas_cons_placed cfg env c cur c2 orders t ts h hp]
          exact le_trans h.le (ih c2 t.id)
    · rw [run_ideas_cons_ignored cfg env c cur t ts h]
      exact ih c cur

theorem run_ideas_cursor_eq_foldl (ts : List Trade) :
    ∀ c cur : ℤ, (run_ideas cfg env c cur ts).cursor =
      (run_ideas cfg env c cur ts).processed.foldl max cur := by
  induction ts with
  | nil => intro c cur; simp [run_ideas]
  | cons t ts ih =>
    intro c cur
    by_cases h : cur < t.id
    · rcases hp : process_trade_idea cfg (env t.id) t c with ⟨c2, r⟩
      cases r with
      | raised =>
          rw [run_ideas_cons_raised cfg env c cur c2 t ts h hp]
          simp
      | skipped =>
          rw [run_ideas_cons_skipped cfg env c cur c2 t ts h hp]
          simpa [max_eq_right h.le] using ih c2 t.id
      | placed orders =>
          rw [run_ideas_cons_placed cfg env c cur c2 orders t ts h hp]
          simpa [max_eq_right h.le] using ih c2 t.id
    · rw [run_ideas_cons_ignored cfg env c cur t ts h]
      exact ih c cur

theorem run_ideas_processed_bounds (ts : List Trade) :
    ∀ c cur : ℤ, ∀ i ∈ (run_ideas cfg env c cur ts).processed,
      cur < i ∧ i ≤ (run_ideas cfg env c cur ts).cursor := by
  induction ts with
  | nil => intro c cur i hi; simp [run_ideas] at hi
  | cons t ts ih =>
    intro c cur i hi
    by_cases h : cur < t.id
    · rcases hp : process_trade_idea cfg (env t.id) t c with ⟨c2, r⟩
      cases r with
      | raised =>
          rw [run_ideas_cons_raised cfg env c cur c2 t ts h hp] at hi
          simp at hi
      | skipped =>
          rw [run_ideas_cons_skipped cfg env c cur c2 t ts h hp] at hi ⊢
          simp only [List.mem_cons] at hi
          rcases hi with rfl | hi
          · exact ⟨h, run_ideas_cursor_mono cfg env ts c2 t.id⟩
          · rcases ih c2 t.id i hi with ⟨h1, h2⟩
            exact ⟨lt_trans h h1, h2⟩
      | placed orders =>
          rw [run_ideas_cons_placed cfg env c cur c2 orders t ts h hp] at hi ⊢
          simp only [List.mem_cons] at hi
          rcases hi with rfl | hi
          · exact ⟨h, run_ideas_cursor_mono cfg env ts c2 t.id⟩
          · rcases ih c2 t.id i hi with ⟨h1, h2⟩
            exact ⟨lt_trans h h1, h2⟩
    · rw [run_ideas_cons_ignored cfg env c cur t ts h] at hi ⊢
      exact ih c cur i hi

theorem run_ideas_processed_pairwise (ts : List Trade) :
    ∀ c cur : ℤ,
      List.Pairwise (fun a b => a < b)
        (run_ideas cfg env c cur ts).processed := by
  induction ts with
  | nil => intro c cur; simp [run_ideas]
  | cons t ts ih =>
    intro c cur
    by_cases h : cur < t.id
    · rcases hp : process_trade_idea cfg (env t.id) t c with ⟨c2, r⟩
      cases r with
      | raised =>
          rw [run_ideas_cons_raised cfg env c cur c2 t ts h hp]
          simp
      | skipped =>
          rw [run_ideas_cons_skipped cfg env c cur c2 t ts h hp]
          exact List.Pairwise.cons
            (fun i hi => (run_ideas_processed_bounds cfg env ts c2 t.id i hi).1)
            (ih c2 t.id)
      | placed orders =>
          rw [run_ideas_cons_placed cfg env c cur c2 orders t ts h hp]
          exact List.Pairwise.cons
            (fun i hi => (run_ideas_processed_bounds cfg env ts c2 t.id i hi).1)
            (ih c2 t.id)
    · rw [run_ideas_cons_ignored cfg env c cur t ts h]
      exact ih c cur

theorem run_ideas_dispatched_sublist (ts : List Trade) :
    ∀ c cur : ℤ,
      List.Sublist (run_ideas cfg env c cur ts).dispatched
        (run_ideas cfg env c cur ts).processed := by
  induction ts with
  | nil => intro c cur; simp [run_ideas]
  | cons t ts ih =>
    intro c cur
    by_cases h : cur < t.id
    · rcases hp : process_trade_idea cfg (env t.id) t c with ⟨c2, r⟩
      cases r with
      | raised =>
          rw [run_ideas_cons_raised cfg env c cur c2 t ts h hp]
      | skipped =>
          rw [run_ideas_cons_skipped cfg env c cur c2 t ts h hp]
          exact List.Sublist.cons t.id (ih c2 t.id)
      | placed orders =>
          rw [run_ideas_cons_placed cfg env c cur c2 orders t ts h hp]
          exact List.Sublist.cons₂ t.id (ih c2 t.id)
    · rw [run_ideas_cons_ignored cfg env c cur t ts h]
      exact ih c cur

theorem run_ideas_all_stale (ts : List Trade) :
    ∀ c cur : ℤ, (∀ t ∈ ts, t.id ≤ cur) →
      run_ideas cfg env c cur ts =
        { counter := c, cursor := cur, processed := [], dispatched := [],
          submissions := [], aborted := false } := by
  induction ts with
  | nil => intro c cur _; rfl
  | cons t ts ih =>
    intro c cur h
    have ht : ¬ cur < t.id := not_lt.mpr (h t (List.mem_cons_self t ts))
    rw [run_ideas_cons_ignored cfg env c cur t ts ht]
    exact ih c cur (fun u hu => h u (List.mem_cons_of_mem t hu))

theorem mem_insert_by_id (t u : Trade) (ts : List Trade) :
    u ∈ insert_by_id t ts ↔ u = t ∨ u ∈ ts := by
  induction ts with
  | nil => simp [insert_by_id]
  | cons v vs ih =>
    by_cases h : v.id < t.id
    · simp only [insert_by_id, if_pos h, List.mem_cons, ih]
      tauto
    · simp only [insert_by_id, if_neg h, List.mem_cons]

theorem mem_sort_trades (u : Trade) (ts : List Trade) :
    u ∈ sort_trades ts ↔ u ∈ ts := by
  induction ts with
  | nil => simp [sort_trades]
  | cons t ts ih =>
    simp only [sort_trades, mem_insert_by_id, List.mem_cons, ih]

end Stp2

/-! Concrete scenario fixtures used by witnesses and counterexamples. -/

/-- A configuration with quantity 1 and every offset equal to 1
(in particular a positive `stop_loss_offset`). -/
def cfgUnit : Stp2.OrderConfig :=
  { quantity := 1, stop_offset := 1, limit_offset := 1,
    stop_loss_offset := 1, take_profit_offset := 1 }

/-- Like `cfgUnit` but with the negative `stop_loss_offset` the stp2
source comment asks for. -/
def cfgNegSL : Stp2.OrderConfig :=
  { quantity := 1, stop_offset := 1, limit_offset := 1,
    stop_loss_offset := -1, take_profit_offset := 1 }

/-- A broker environment where every contract qualifies and every quote
carries last-trade price 100. -/
def envGood : ℤ → Stp2.BrokerEnv :=
  fun _ => { qualifies := true, tickers := fun _ => { last := 100, close := 0 } }

/-- A broker environment where the quote for idea 1 never populates
(last and close are 0 on every attempt) while every other idea quotes
normally. -/
def envPriceFail1 : ℤ → Stp2.BrokerEnv :=
  fun i =>
    if i = 1 then { qualifies := true, tickers := fun _ => { last := 0, close := 0 } }
    else { qualifies := true, tickers := fun _ => { last := 100, close := 0 } }

/-- An open-order snapshot holding 15 open BUY orders on the MES future
expiring 202506. -/
def fifteenBuys : List LegacyBridge.OpenOrder :=
  List.replicate 15
    { symbol := "MES", lastTradeDateOrContractMonth := "202506", action := "BUY" }

/-- A legacy-variant configuration with unit offsets and expiry 202506. -/
def cfgCopy : LegacyBridge.CopyConfig :=
  { entry_price_offset := 1, stop_loss_offset := 1, limit_price_offset := 1,
    expiry := "202506" }

/-- A legacy-variant broker environment at the throttle ceiling: the
contract qualifies, quotes at 100, and 15 BUY orders are already open. -/
def envThrottled : LegacyBridge.CopyEnv :=
  { qualifies := true, ticker := { last := 100, close := 0 },
    open_orders := fifteenBuys }

/-- A legacy-variant broker environment with no open orders: the contract
qualifies and quotes at 100. -/
def envOpenCopy : LegacyBridge.CopyEnv :=
  { qualifies := true, ticker := { last := 100, close := 0 }, open_orders := [] }

/-! The claims. -/

/-- C2: in every bracket built by the stp2 `bracket_order`, the
take-profit leg's and the stop-loss leg's `parentId` both equal the entry
leg's `orderId`; `transmit` is false on the entry and take-profit legs and
true on the stop-loss leg; and the three legs consume three consecutive
order-id-counter values allocated in the order entry, take-profit,
stop-loss.  The legacy copy's `bracket_order` satisfies the same linkage
with ids `parent_order_id`, `+1`, `+2` for both resolvable actions. -/
theorem C2_bracket_linkage :
    (∀ (c : ℤ) (a : String) (q : ℤ) (sp lp slp tpp : ℚ),
      ∃ parent tp sl,
        (Stp2.bracket_order c a q sp lp slp tpp).2 = [parent, tp, sl] ∧
        tp.parentId = some parent.orderId ∧
        sl.parentId = some parent.orderId ∧
        parent.parentId = none ∧
        parent.transmit = false ∧ tp.transmit = false ∧ sl.transmit = true ∧
        parent.orderId = c + 1 ∧ tp.orderId = c + 2 ∧ sl.orderId = c + 3 ∧
        (Stp2.bracket_order c a q sp lp slp tpp).1 = c + 3) ∧
    (∀ (pid q : ℤ) (ep slo lpo : ℚ),
      ∃ parent tp sl,
        LegacyBridge.bracket_order pid "BUY" q ep slo lpo =
          some [parent, tp, sl] ∧
        tp.parentId = some parent.orderId ∧
        sl.parentId = some parent.orderId ∧
        parent.parentId = none ∧
        parent.transmit = false ∧ tp.transmit = false ∧ sl.transmit = true ∧
        parent.orderId = pid ∧ tp.orderId = pid + 1 ∧ sl.orderId = pid + 2) ∧
    (∀ (pid q : ℤ) (ep slo lpo : ℚ),
      ∃ parent tp sl,
        LegacyBridge.bracket_order pid "SELL" q ep slo lpo =
          some [parent, tp, sl] ∧
        tp.parentId = some parent.orderId ∧
        sl.parentId = some parent.orderId ∧
        parent.parentId = none ∧
        parent.transmit = false ∧ tp.transmit = false ∧ sl.transmit = true ∧
        parent.orderId = pid ∧ tp.orderId = pid + 1 ∧ sl.orderId = pid + 2) := by
  refine ⟨?_, ?_, ?_⟩
  · intro c a q sp lp slp tpp
    refine ⟨_, _, _, rfl, rfl, rfl, rfl, rfl, rfl, rfl, ?_, ?_, ?_, ?_⟩ <;>
      simp [Stp2.bracket_order, Stp2.get_next_order_id] <;> ring
  · intro pid q ep slo lpo
    exact ⟨_, _, _, rfl, rfl, rfl, rfl, rfl, rfl, rfl, rfl, rfl, rfl⟩
  · intro pid q ep slo lpo
    exact ⟨_, _, _, rfl, rfl, rfl, rfl, rfl, rfl, rfl, rfl, rfl, rfl⟩

/-- C7: the stp2 price oracle makes up to exactly 3 attempts; on an
attempt it returns the last-trade price when positive, else the last-close
price when positive; it fails (raises) precisely when all 3 attempts
deliver no positive last or close price. -/
theorem C7_price_oracle (tk : Nat → Ticker) :
    Stp2.retry_count = 3 ∧
    ((tk 0).last > 0 → Stp2.fetch_latest_price tk = some (tk 0).last) ∧
    (¬ (tk 0).last > 0 → (tk 0).close > 0 →
      Stp2.fetch_latest_price tk = some (tk 0).close) ∧
    (Stp2.fetch_latest_price tk = none ↔
      ∀ i < 3, ¬ (tk i).last > 0 ∧ ¬ (tk i).close > 0) ∧
    (∀ t : Ticker, LegacyBridge.fetch_latest_price t =
      Stp2.fetch_latest_price_from (fun _ => t) 0 1) := by
  refine ⟨rfl, ?_, ?_, ?_, fun t => rfl⟩
  · intro h
    simp [Stp2.fetch_latest_price, Stp2.retry_count,
      Stp2.fetch_latest_price_from, h]
  · intro h1 h2
    simp [Stp2.fetch_latest_price, Stp2.retry_count,
      Stp2.fetch_latest_price_from, h1, h2]
  · simp only [Stp2.fetch_latest_price, Stp2.retry_count,
      Stp2.fetch_latest_price_from]
    constructor
    · intro hnone i hi
      split_ifs at hnone with a1 a2 b1 b2 c1 c2
      interval_cases i <;> exact ⟨by assumption, by assumption⟩
    · intro hall
      have h0 := hall 0 (by norm_num)
      have h1 := hall 1 (by norm_num)
      have h2 := hall 2 (by norm_num)
      simp [h0.1, h0.2, h1.1, h1.2, h2.1, h2.2]

/-- Witness for C7: concrete quote streams exercising the last-price,
close-price and exhausted-retries paths of the price oracle. -/
theorem C7_price_oracle_witness :
    Stp2.fetch_latest_price (fun _ => { last := 5, close := 0 }) = some 5 ∧
    Stp2.fetch_latest_price (fun _ => { last := 0, close := 7 }) = some 7 ∧
    Stp2.fetch_latest_price (fun _ => { last := 0, close := 0 }) = none := by
  refine ⟨?_, ?_, ?_⟩
  · exact (C7_price_oracle (fun _ => { last := 5, close := 0 })).2.1 (by norm_num)
  · exact (C7_price_oracle (fun _ => { last := 0, close := 7 })).2.2.1
      (by norm_num) (by norm_num)
  · exact (C7_price_oracle (fun _ => { last := 0, close := 0 })).2.2.2.1.mpr
      (by intro i _; exact ⟨by norm_num, by norm_num⟩)

/-- C1: evaluation at the failing input.  In a batch of two viable-looking
ideas where idea 1's quote never populates, the stp2 coordinator does not
continue with idea 2: the `ValueError` raised by `fetch_latest_price`
propagates uncaught, aborting the cycle (and the polling loop) with
nothing dispatched and the cursor still at 0 — although idea 2 on its own
would have been dispatched. -/
theorem C1_price_failure_aborts_batch :
    (Stp2.poll_cycle cfgUnit envPriceFail1 0 0
        [{ id := 1, buySell := "L" }, { id := 2, buySell := "L" }]).aborted
      = true ∧
    (Stp2.poll_cycle cfgUnit envPriceFail1 0 0
        [{ id := 1, buySell := "L" }, { id := 2, buySell := "L" }]).dispatched
      = [] ∧
    (Stp2.poll_cycle cfgUnit envPriceFail1 0 0
        [{ id := 1, buySell := "L" }, { id := 2, buySell := "L" }]).cursor
      = 0 ∧
    (Stp2.poll_cycle cfgUnit envPriceFail1 0 0
        [{ id := 2, buySell := "L" }]).dispatched = [2] := by
  decide

/-- C3 counterexample: a cycle in which idea 5 is dispatched and idea 7 is
deliberately skipped (invalid action code) ends with cursor 7, not the
maximum successfully dispatched id 5. -/
theorem C3_counterexample :
    (Stp2.poll_cycle cfgUnit envGood 0 0
        [{ id := 5, buySell := "L" }, { id := 7, buySell := "X" }]).dispatched
      = [5] ∧
    (Stp2.poll_cycle cfgUnit envGood 0 0
        [{ id := 5, buySell := "L" }, { id := 7, buySell := "X" }]).cursor
      = 7 ∧
    (7 : ℤ) ≠ 5 := by
  decide

/-- C3 amended: the cursor after a cycle is at least the cursor before
it, and equals the running maximum over the ids processed without raising
in that cycle (dispatched or deliberately skipped), which bounds every
successfully dispatched id. -/
theorem C3_monotone_cursor (cfg : Stp2.OrderConfig)
    (env : ℤ → Stp2.BrokerEnv) (c cur : ℤ) (ts : List Trade) :
    cur ≤ (Stp2.poll_cycle cfg env c cur ts).cursor ∧
    (Stp2.poll_cycle cfg env c cur ts).cursor =
      (Stp2.poll_cycle cfg env c cur ts).processed.foldl max cur ∧
    ∀ i ∈ (Stp2.poll_cycle cfg env c cur ts).dispatched,
      i ≤ (Stp2.poll_cycle cfg env c cur ts).cursor := by
  refine ⟨Stp2.run_ideas_cursor_mono cfg env (Stp2.sort_trades ts) c cur,
    Stp2.run_ideas_cursor_eq_foldl cfg env (Stp2.sort_trades ts) c cur, ?_⟩
  intro i hi
  have hsub :=
    Stp2.run_ideas_dispatched_sublist cfg env (Stp2.sort_trades ts) c cur
  exact (Stp2.run_ideas_processed_bounds cfg env (Stp2.sort_trades ts) c cur i
    (hsub.subset hi)).2

/-- Witness for C3 amended, at the counterexample scenario: the cursor
does not decrease and bounds the dispatched id 5. -/
theorem C3_monotone_cursor_witness :
    (0 : ℤ) ≤ (Stp2.poll_cycle cfgUnit envGood 0 0
        [{ id := 5, buySell := "L" }, { id := 7, buySell := "X" }]).cursor ∧
    (5 : ℤ) ≤ (Stp2.poll_cycle cfgUnit envGood 0 0
        [{ id := 5, buySell := "L" }, { id := 7, buySell := "X" }]).cursor := by
  refine ⟨(C3_monotone_cursor cfgUnit envGood 0 0
      [{ id := 5, buySell := "L" }, { id := 7, buySell := "X" }]).1, ?_⟩
  exact (C3_monotone_cursor cfgUnit envGood 0 0
      [{ id := 5, buySell := "L" }, { id := 7, buySell := "X" }]).2.2 5
    (by decide)

/-- C4: a cycle whose fetched batch contains only ids at or below the
cursor submits nothing to the broker, dispatches nothing, and leaves both
the cursor and the order-id counter unchanged. -/
theorem C4_idempotence (cfg : Stp2.OrderConfig) (env : ℤ → Stp2.BrokerEnv)
    (c cur : ℤ) (ts : List Trade) (h : ∀ t ∈ ts, t.id ≤ cur) :
    (Stp2.poll_cycle cfg env c cur ts).submissions = [] ∧
    (Stp2.poll_cycle cfg env c cur ts).cursor = cur ∧
    (Stp2.poll_cycle cfg env c cur ts).dispatched = [] ∧
    (Stp2.poll_cycle cfg env c cur ts).counter = c := by
  have h2 : ∀ t ∈ Stp2.sort_trades ts, t.id ≤ cur :=
    fun t ht => h t ((Stp2.mem_sort_trades t ts).mp ht)
  rw [Stp2.poll_cycle,
    Stp2.run_ideas_all_stale cfg env (Stp2.sort_trades ts) c cur h2]
  exact ⟨rfl, rfl, rfl, rfl⟩

/-- Witness for C4: ids 3 and 9 with cursor already at 9. -/
theorem C4_idempotence_witness :
    (Stp2.poll_cycle cfgUnit envGood 0 9
        [{ id := 3, buySell := "L" }, { id := 9, buySell := "L" }]).submissions
      = [] ∧
    (Stp2.poll_cycle cfgUnit envGood 0 9
        [{ id := 3, buySell := "L" }, { id := 9, buySell := "L" }]).cursor
      = 9 ∧
    (Stp2.poll_cycle cfgUnit envGood 0 9
        [{ id := 3, buySell := "L" }, { id := 9, buySell := "L" }]).dispatched
      = [] ∧
    (Stp2.poll_cycle cfgUnit envGood 0 9
        [{ id := 3, buySell := "L" }, { id := 9, buySell := "L" }]).counter
      = 0 :=
  C4_idempotence cfgUnit envGood 0 9
    [{ id := 3, buySell := "L" }, { id := 9, buySell := "L" }] (by decide)

/-- C5: in every cycle the dispatched ids are strictly ascending, and on
the batch with ids [5, 2, 9] (in feed order) and cursor 0 the dispatch
order is 2, 5, 9. -/
theorem C5_dispatch_ordering :
    (∀ (cfg : Stp2.OrderConfig) (env : ℤ → Stp2.BrokerEnv) (c cur : ℤ)
        (ts : List Trade),
      List.Pairwise (fun a b => a < b)
        (Stp2.poll_cycle cfg env c cur ts).dispatched) ∧
    (Stp2.poll_cycle cfgUnit envGood 0 0
        [{ id := 5, buySell := "L" }, { id := 2, buySell := "L" },
         { id := 9, buySell := "L" }]).dispatched = [2, 5, 9] := by
  constructor
  · intro cfg env c cur ts
    exact List.Pairwise.sublist
      (Stp2.run_ideas_dispatched_sublist cfg env (Stp2.sort_trades ts) c cur)
      (Stp2.run_ideas_processed_pairwise cfg env (Stp2.sort_trades ts) c cur)
  · decide

/-- C6 counterexample: with identical positive offset magnitudes (all 1)
and reference price 100, the stp2 BUY bracket puts the stop-loss at 102,
strictly above the entry stop price 101; and the legacy copy's SELL
bracket puts the stop-loss at 100, strictly below the entry price 101 —
against the claimed Short direction. -/
theorem C6_counterexample :
    Stp2.bracket_prices "BUY" 100 cfgUnit =
      some { stop_price := 101, limit_price := 101,
             stop_loss_price := 102, take_profit_price := 102 } ∧
    ¬ ((102 : ℚ) < 101) ∧
    ((LegacyBridge.bracket_order 10 "SELL" 1 101 1 1).getD []).map
        Order.stopPrice = [none, none, some 100] ∧
    ¬ ((101 : ℚ) < 100) := by
  refine ⟨?_, by norm_num, ?_, by norm_num⟩
  · simp only [Stp2.bracket_prices, cfgUnit, if_pos rfl]
    norm_num
  · simp only [LegacyBridge.bracket_order]
    norm_num

/-- C6 amended: in the stp2 pricing block, with `stop_loss_offset`
configured negative (as the source comment requires), the Long stop-loss
lies strictly below the entry stop price and the Short stop-loss strictly
above it; the stop, limit and take-profit offsets enter with `+ abs` for
Long and `- abs` for Short (sign inversion), while the stop-loss offset is
added raw for Long and as an absolute value for Short. -/
theorem C6_sign_symmetry (p : ℚ) (cfg : Stp2.OrderConfig)
    (hneg : cfg.stop_loss_offset < 0) :
    Stp2.bracket_prices "BUY" p cfg =
      some { stop_price := p + |cfg.stop_offset|,
             limit_price := p + |cfg.limit_offset|,
             stop_loss_price := p + |cfg.stop_offset| + cfg.stop_loss_offset,
             take_profit_price :=
               p + |cfg.stop_offset| + |cfg.take_profit_offset| } ∧
    Stp2.bracket_prices "SELL" p cfg =
      some { stop_price := p - |cfg.stop_offset|,
             limit_price := p - |cfg.limit_offset|,
             stop_loss_price := p - |cfg.stop_offset| + |cfg.stop_loss_offset|,
             take_profit_price :=
               p - |cfg.stop_offset| - |cfg.take_profit_offset| } ∧
    (∀ pr, Stp2.bracket_prices "BUY" p cfg = some pr →
      pr.stop_loss_price < pr.stop_price) ∧
    (∀ pr, Stp2.bracket_prices "SELL" p cfg = some pr →
      pr.stop_price < pr.stop_loss_price) := by
  have habs : 0 < |cfg.stop_loss_offset| := abs_pos.mpr (ne_of_lt hneg)
  refine ⟨rfl, rfl, ?_, ?_⟩
  · intro pr hpr
    rw [show Stp2.bracket_prices "BUY" p cfg = some
        { stop_price := p + |cfg.stop_offset|,
          limit_price := p + |cfg.limit_offset|,
          stop_loss_price := p + |cfg.stop_offset| + cfg.stop_loss_offset,
          take_profit_price :=
            p + |cfg.stop_offset| + |cfg.take_profit_offset| } from rfl] at hpr
    cases Option.some.inj hpr
    simpa using hneg
  · intro pr hpr
    rw [show Stp2.bracket_prices "SELL" p cfg = some
        { stop_price := p - |cfg.stop_offset|,
          limit_price := p - |cfg.limit_offset|,
          stop_loss_price := p - |cfg.stop_offset| + |cfg.stop_loss_offset|,
          take_profit_price :=
            p - |cfg.stop_offset| - |cfg.take_profit_offset| } from rfl] at hpr
    cases Option.some.inj hpr
    simpa using habs

/-- Witness for C6 amended: price 100 with unit offsets and
`stop_loss_offset = -1`. -/
theorem C6_sign_symmetry_witness :
    (∃ pr : Stp2.BracketPrices,
      Stp2.bracket_prices "BUY" 100 cfgNegSL = some pr ∧
        pr.stop_loss_price < pr.stop_price) ∧
    (∃ pr : Stp2.BracketPrices,
      Stp2.bracket_prices "SELL" 100 cfgNegSL = some pr ∧
        pr.stop_price < pr.stop_loss_price) := by
  have h := C6_sign_symmetry 100 cfgNegSL (by norm_num [cfgNegSL])
  exact ⟨⟨_, h.1, h.2.2.1 _ h.1⟩, ⟨_, h.2.1, h.2.2.2 _ h.2.1⟩⟩

/-- C8 counterexample: with 15 open BUY orders at the ceiling, the legacy
coordinator places no leg (the throttle denies), but the order-id counter
has already been advanced for the idea — `process_trade_idea` returns
request-id 1 from 0, where the claim requires it unchanged. -/
theorem C8_counterexample :
    LegacyBridge.check_order_limit fifteenBuys
      { symbol := "MES", lastTradeDateOrContractMonth := "202506" } = (15, 0) ∧
    LegacyBridge.process_trade_idea cfgCopy envThrottled
      { id := 101, symbol := "SPX", buySell := "B" } 0 = (1, some []) ∧
    (1 : ℤ) ≠ 0 := by
  decide

/-- C8 amended: the throttle guard denies exactly when either side's
open-order count for the contract is at or above 15, and a denied idea has
no leg submitted; but the bracket (and its broker request id) is built
before the capacity check, so the order-id counter is still advanced for
the throttled idea. -/
theorem C8_throttle :
    (∀ (oo : List LegacyBridge.OpenOrder)
        (contract : LegacyBridge.ContractSpec) (legs : List Order),
      legs ≠ [] →
      (LegacyBridge.place_orders_if_under_limit oo contract legs = [] ↔
        15 ≤ (LegacyBridge.check_order_limit oo contract).1 ∨
        15 ≤ (LegacyBridge.check_order_limit oo contract).2)) ∧
    (∀ (cfg : LegacyBridge.CopyConfig) (env : LegacyBridge.CopyEnv)
        (t : LegacyBridge.CopyTrade) (reqId : ℤ),
      env.qualifies = true → env.ticker.last > 0 → t.buySell = "B" →
      15 ≤ (LegacyBridge.check_order_limit env.open_orders
        { symbol := LegacyBridge.symbol_map t.symbol,
          lastTradeDateOrContractMonth := cfg.expiry }).1 →
      LegacyBridge.process_trade_idea cfg env t reqId = (reqId + 1, some [])) := by
  constructor
  · intro oo contract legs hlegs
    simp only [LegacyBridge.place_orders_if_under_limit]
    split_ifs with hc
    · exact ⟨fun h => absurd h hlegs, fun h => absurd hc (by omega)⟩
    · simp only [true_iff]
      omega
  · intro cfg env t reqId hq hp ha hth
    have hnl : ¬ ((LegacyBridge.check_order_limit env.open_orders
        { symbol := LegacyBridge.symbol_map t.symbol,
          lastTradeDateOrContractMonth := cfg.expiry }).1 < 15) :=
      not_lt.mpr hth
    simp [LegacyBridge.process_trade_idea, LegacyBridge.fetch_latest_price,
      LegacyBridge.bracket_order, LegacyBridge.place_orders_if_under_limit,
      hq, hp, ha, hnl]

/-- Witness for C8 amended: the ceiling scenario with 15 open BUY orders;
the idea is denied with zero submissions while the request id moves from
0 to 1. -/
theorem C8_throttle_witness :
    LegacyBridge.process_trade_idea cfgCopy envThrottled
      { id := 101, symbol := "SPX", buySell := "B" } 0 = (0 + 1, some []) :=
  C8_throttle.2 cfgCopy envThrottled
    { id := 101, symbol := "SPX", buySell := "B" } 0 rfl
    (by norm_num [envThrottled]) rfl (by decide)

/-- C9 counterexample: the action code "Buy" — accepted as Long by the
claim — is rejected by both variants: the stp2 coordinator skips the idea
(its map accepts only L and S) and the legacy coordinator places nothing
(it accepts only B and S). -/
theorem C9_counterexample :
    Stp2.process_trade_idea cfgUnit (envGood 0)
      { id := 1, buySell := "Buy" } 0 = (0, Stp2.IdeaResult.skipped) ∧
    Stp2.action_map (Stp2.pyUpper (Stp2.pyStrip "Buy")) = none ∧
    LegacyBridge.process_trade_idea cfgCopy envOpenCopy
      { id := 1, symbol := "SPX", buySell := "Buy" } 0 = (0, some []) := by
  decide

/-- C9 amended: the stp2 builder resolves exactly L (after stripping and
upper-casing) to BUY and S to SELL and skips every other action code; the
legacy copy resolves exactly B to BUY and S to SELL and skips (or, when
the skip is pre-empted by a price failure, raises on) everything else;
neither variant ever defaults a side. -/
theorem C9_action_resolution (t : Trade) (cfg : Stp2.OrderConfig)
    (env : Stp2.BrokerEnv) (c : ℤ) (t2 : LegacyBridge.CopyTrade)
    (cfg2 : LegacyBridge.CopyConfig) (env2 : LegacyBridge.CopyEnv) (r : ℤ) :
    Stp2.action_map "L" = some "BUY" ∧
    Stp2.action_map "S" = some "SELL" ∧
    (∀ a : String, a ≠ "L" → a ≠ "S" → Stp2.action_map a = none) ∧
    (Stp2.pyUpper (Stp2.pyStrip t.buySell) ≠ "L" →
     Stp2.pyUpper (Stp2.pyStrip t.buySell) ≠ "S" →
     Stp2.process_trade_idea cfg env t c = (c, Stp2.IdeaResult.skipped)) ∧
    (t2.buySell ≠ "S" → t2.buySell ≠ "B" →
     (LegacyBridge.process_trade_idea cfg2 env2 t2 r).1 = r ∧
     ((LegacyBridge.process_trade_idea cfg2 env2 t2 r).2 = some [] ∨
      (LegacyBridge.process_trade_idea cfg2 env2 t2 r).2 = none)) := by
  refine ⟨rfl, rfl, ?_, ?_, ?_⟩
  · intro a h1 h2
    simp [Stp2.action_map, h1, h2]
  · intro h1 h2
    simp [Stp2.process_trade_idea, Stp2.action_map, h1, h2]
  · intro h1 h2
    cases hq : env2.qualifies with
    | false => simp [LegacyBridge.process_trade_idea, hq]
    | true =>
      cases hf : LegacyBridge.fetch_latest_price env2.ticker with
      | none => simp [LegacyBridge.process_trade_idea, hq, hf]
      | some p => simp [LegacyBridge.process_trade_idea, hq, hf, h1, h2]

/-- Witness for C9 amended: the rejected action codes "Buy" (stp2) and
"Long" (legacy copy). -/
theorem C9_action_resolution_witness :
    Stp2.process_trade_idea cfgUnit (envGood 0)
      { id := 3, buySell := "Buy" } 5 = (5, Stp2.IdeaResult.skipped) ∧
    (LegacyBridge.process_trade_idea cfgCopy envOpenCopy
      { id := 3, symbol := "SPX", buySell := "Long" } 5).1 = 5 := by
  have h := C9_action_resolution { id := 3, buySell := "Buy" } cfgUnit
    (envGood 0) 5 { id := 3, symbol := "SPX", buySell := "Long" } cfgCopy
    envOpenCopy 5
  exact ⟨h.2.2.2.1 (by decide) (by decide),
    (h.2.2.2.2 (by decide) (by decide)).1⟩

/-- C10: every idea processed without raising in a cycle — dispatched or
deliberately skipped — has an id strictly above the cycle's starting
cursor and at most the final (persisted) cursor; and no id processed in a
cycle is processed again by a later cycle that starts from the persisted
cursor, so a skipped idea is never retried. -/
theorem C10_skip_and_advance (cfg : Stp2.OrderConfig)
    (env : ℤ → Stp2.BrokerEnv) (c cur : ℤ) (ts : List Trade) :
    (∀ i ∈ (Stp2.poll_cycle cfg env c cur ts).processed,
      cur < i ∧ i ≤ (Stp2.poll_cycle cfg env c cur ts).cursor) ∧
    (∀ (c2 : ℤ) (ts2 : List Trade) (i : ℤ),
      i ∈ (Stp2.poll_cycle cfg env c2
            (Stp2.poll_cycle cfg env c cur ts).cursor ts2).processed →
      i ∉ (Stp2.poll_cycle cfg env c cur ts).processed) := by
  constructor
  · exact Stp2.run_ideas_processed_bounds cfg env (Stp2.sort_trades ts) c cur
  · intro c2 ts2 i hi hmem
    have h1 := (Stp2.run_ideas_processed_bounds cfg env (Stp2.sort_trades ts2)
      c2 (Stp2.poll_cycle cfg env c cur ts).cursor i hi).1
    have h2 := (Stp2.run_ideas_processed_bounds cfg env (Stp2.sort_trades ts)
      c cur i hmem).2
    exact absurd h2 (not_le.mpr h1)

/-- Witness for C10: idea 7 with an invalid action code is skipped yet
advances the cursor to 7, and a later cycle from that cursor processes a
fresh idea 9 that the first cycle did not process. -/
theorem C10_skip_and_advance_witness :
    ((0 : ℤ) < 7 ∧
      (7 : ℤ) ≤ (Stp2.poll_cycle cfgUnit envGood 0 0
        [{ id := 7, buySell := "X" }]).cursor) ∧
    (9 : ℤ) ∉ (Stp2.poll_cycle cfgUnit envGood 0 0
        [{ id := 7, buySell := "X" }]).processed := by
  have h := C10_skip_and_advance cfgUnit envGood 0 0
    [{ id := 7, buySell := "X" }]
  exact ⟨h.1 7 (by decide),
    h.2 0 [{ id := 9, buySell := "L" }] 9 (by decide)⟩

end IbBridge
